import Mathlib

set_option autoImplicit false

/-!
Verification development for the UNSC/KDN sanction-list scraper.

The Python sources are shallowly embedded below: string-level helpers model the
Python `str` methods used by the scraper (restricted to the ASCII range, which is
the range all claims exercise), `parse_date` models `src/KDN/kdn_utils.py`
(identical to the copy in `src/utils/common_utils.py`), the PDF table extraction
models `src/KDN/kdn_pdf_parser.py` over pre-extracted page data (pdfplumber is an
external collaborator: a page is its list of candidate cell grids plus its
optional plain text), the XML record normalization models
`src/UNSC/unsc_xml_parser.py` over a Python-value tree, and the two pipeline
drivers model `src/main.py` with every external effect supplied by an
environment record.
-/

/-- ASCII decimal digit ('0' is code point 48, '9' is 57), the characters Python
`str.isdigit` and the regex class `\d` accept in the inputs the scraper handles. -/
def pyIsDigit (c : Char) : Bool := 48 ≤ c.toNat && c.toNat ≤ 57

/-- Python whitespace class (the characters `str.strip` and `\s` treat as space). -/
def pyIsSpace (c : Char) : Bool :=
  c = ' ' || c = '\t' || c = '\n' || c = '\x0d' || c = '\x0b' || c = '\x0c'

/-- ASCII letter, the character class `[A-Za-z]` of the second parse_date pattern. -/
def pyIsAsciiLetter (c : Char) : Bool := ('A' ≤ c && c ≤ 'Z') || ('a' ≤ c && c ≤ 'z')

/-- Drop the longest suffix whose characters satisfy `p`. -/
def dropTrailingWhile (p : Char → Bool) (l : List Char) : List Char :=
  (l.reverse.dropWhile p).reverse

/-- Python `str.strip()` on a char list. -/
def pyStripL (l : List Char) : List Char :=
  dropTrailingWhile pyIsSpace (l.dropWhile pyIsSpace)

/-- Python `str.strip()`. -/
def pyStrip (s : String) : String := ⟨pyStripL s.data⟩

/-- Python `s.replace(' ', '')`: delete every space character. -/
def pyRemoveSpaces (s : String) : String := ⟨s.data.filter (fun c => c ≠ ' ')⟩

/-- Whether `pat` is an initial segment of `l`. -/
def leadsWith : List Char → List Char → Bool
  | [], _ => true
  | _ :: _, [] => false
  | a :: pat, b :: l => a == b && leadsWith pat l

/-- Whether `pat` occurs as a contiguous run inside `l` (Python `pat in s`). -/
def containsSubL (pat : List Char) : List Char → Bool
  | [] => leadsWith pat []
  | c :: t => leadsWith pat (c :: t) || containsSubL pat t

/-- Python substring membership `pat in s`. -/
def containsSub (s pat : String) : Bool := containsSubL pat.data s.data

/-- Python `str.isdigit` (ASCII digits): nonempty and all digits. -/
def isDigitStr (s : String) : Bool := !s.data.isEmpty && s.data.all pyIsDigit

/-- Python `int()` of an all-digit string, as a fold over its characters. -/
def pyIntL (l : List Char) : Nat := l.foldl (fun a c => a * 10 + (c.toNat - '0'.toNat)) 0

/-- Python `int()` of an all-digit string. -/
def pyInt (s : String) : Nat := pyIntL s.data

/-- Python `str.lower()` (ASCII letters). -/
def pyLower (s : String) : String := ⟨s.data.map Char.toLower⟩

/-- Decimal digit count, with explicit fuel so it reduces by structural recursion.
The fuel is always instantiated with the number itself, which suffices since the
value shrinks by a factor of ten per step. -/
def pyIntStrLenAux : Nat → Nat → Nat
  | 0, _ => 1
  | fuel + 1, n => if n < 10 then 1 else pyIntStrLenAux fuel (n / 10) + 1

/-- Python `len(str(n))` for a natural number: its count of decimal digits. -/
def pyIntStrLen (n : Nat) : Nat := pyIntStrLenAux n n

/-- MONTH_MAP from src/KDN/kdn_utils.py. -/
def MONTH_MAP : List (Nat × String) :=
  [(1, "January"), (2, "February"), (3, "March"), (4, "April"), (5, "May"), (6, "June"),
   (7, "July"), (8, "August"), (9, "September"), (10, "October"), (11, "November"),
   (12, "December")]

/-- Python `MONTH_MAP.get(month, str(month))`. -/
def monthGet (m : Nat) : String :=
  match MONTH_MAP.find? (fun p => p.1 == m) with
  | some p => p.2
  | none => toString m

/-- Greedy anchored match of the pattern `(\d{1,2})\.(\d{1,2})\.(\d{2,4})` used by
parse_date, returning the three captured groups. As with `re.match`, trailing
characters after the year group are allowed. -/
def matchDMY (l : List Char) : Option (List Char × List Char × List Char) :=
  let r1 := l.takeWhile pyIsDigit
  if r1.length = 0 || 2 < r1.length then none
  else
    match l.dropWhile pyIsDigit with
    | '.' :: rest1 =>
      let r2 := rest1.takeWhile pyIsDigit
      if r2.length = 0 || 2 < r2.length then none
      else
        match rest1.dropWhile pyIsDigit with
        | '.' :: rest2 =>
          let r3 := rest2.takeWhile pyIsDigit
          if r3.length < 2 then none else some (r1, r2, r3.take 4)
        | _ => none
    | _ => none

/-- Anchored match test for the pattern `\d{1,2}\s[A-Za-z]+\s\d{4}` that parse_date
uses to recognize an already-formatted "DD Month YYYY" string. -/
def matchDMonY (l : List Char) : Bool :=
  let r1 := l.takeWhile pyIsDigit
  if r1.length = 0 || 2 < r1.length then false
  else
    match l.dropWhile pyIsDigit with
    | c1 :: rest1 =>
      pyIsSpace c1 &&
        (let r2 := rest1.takeWhile pyIsAsciiLetter
         if r2.length = 0 then false
         else
           match rest1.dropWhile pyIsAsciiLetter with
           | c2 :: rest2 => pyIsSpace c2 && decide (4 ≤ (rest2.takeWhile pyIsDigit).length)
           | [] => false)
    | [] => false

/-- parse_date from src/KDN/kdn_utils.py lines 10-56 (textually identical to
src/utils/common_utils.py lines 12-58). The run date's year, read in Python via
`datetime.now().year`, is passed explicitly as `currentYear`. The int() calls and
the month lookup inside the source's try block cannot fail on regex-matched
groups, so the except branch is unreachable and not modelled. -/
def parse_date (date_str : String) (currentYear : Nat) : String :=
  if date_str = "" || pyStrip date_str = "-" || pyStrip date_str = "" then "-"
  else
    let cleaned_date_str := pyStrip (pyRemoveSpaces date_str)
    match matchDMY cleaned_date_str.data with
    | some (dayL, monthL, yearL) =>
      let day := pyIntL dayL
      let month := pyIntL monthL
      let year0 := pyIntL yearL
      let year :=
        if pyIntStrLen year0 = 2 then
          if currentYear % 100 + 5 < year0 then 1900 + year0 else 2000 + year0
        else year0
      toString day ++ " " ++ monthGet month ++ " " ++ toString year
    | none =>
      if matchDMonY (pyStrip date_str).data then pyStrip date_str else date_str

/-! PDF table extraction (src/KDN/kdn_pdf_parser.py). pdfplumber is an external
collaborator: a page is modelled as the list of candidate cell grids it yields
under the fixed table settings, together with its extracted plain text, which
pdfplumber may report as None. A cell may also be None. -/

abbrev Cell := Option String

abbrev TableRow := List Cell

abbrev Table := List TableRow

structure Page where
  tables : List Table
  text : Option String

/-- Python runtime errors the embedded code can raise. -/
inductive PyErr where
  | typeError
deriving DecidableEq

/-- Cell cleanup (kdn_pdf_parser lines 69 and 162):
`cell.replace('\n', ' ').strip() if cell else ''`. -/
def cleanCell (cell : Cell) : String :=
  match cell with
  | some s => if s = "" then "" else pyStrip ⟨s.data.map (fun c => if c = '\n' then ' ' else c)⟩
  | none => ""

/-- Column-0 identifier cleanup (lines 72 and 165):
`cleaned_row[0].replace('.', '') if cleaned_row and cleaned_row[0] else ''`. -/
def rowIdRaw (cleaned : List String) : String :=
  match cleaned with
  | [] => ""
  | c0 :: _ => if c0 = "" then "" else ⟨c0.data.filter (fun c => c ≠ '.')⟩

structure IndividualRecord where
  ID : Nat
  REFERENCE_NUMBER : String
  NAME : String
  SALUTATION : String
  OCCUPATION : String
  DATE_OF_BIRTH : String
  BIRTH_PLACE : String
  OTHER_NAME : String
  NATIONALITY : String
  PASSPORT_NUMBER : String
  ID_NUMBER : String
  ADDRESS : String
  LISTED_DATE : String
deriving DecidableEq

/-- Sentinel placeholder: `padded_row[i] if padded_row[i] else '-'`. -/
def orDash (s : String) : String := if s = "" then "-" else s

/-- Build one individuals record from a cleaned row (kdn_pdf_parser lines 79-98):
right-pad to 13 cells with empty strings, then map positionally. -/
def mkIndividualRecord (currentYear : Nat) (current_id : Nat) (cleaned : List String) :
    IndividualRecord :=
  let padded := cleaned ++ List.replicate (13 - cleaned.length) ""
  { ID := current_id
    REFERENCE_NUMBER := orDash (padded.getD 1 "")
    NAME := orDash (padded.getD 2 "")
    SALUTATION := orDash (padded.getD 3 "")
    OCCUPATION := orDash (padded.getD 4 "")
    DATE_OF_BIRTH := parse_date (padded.getD 5 "") currentYear
    BIRTH_PLACE := orDash (padded.getD 6 "")
    OTHER_NAME := orDash (padded.getD 7 "")
    NATIONALITY := orDash (padded.getD 8 "")
    PASSPORT_NUMBER := orDash (padded.getD 9 "")
    ID_NUMBER := orDash (padded.getD 10 "")
    ADDRESS := orDash (padded.getD 11 "")
    LISTED_DATE := parse_date (padded.getD 12 "") currentYear }

/-- Row loop of convert_individuals_to_json (lines 67-105). `headingInPageText`
records whether "B. GROUP" occurred in the page's text: on a non-data row the
source then breaks out of the row loop. That branch is unreachable at the call
site, where the page loop already stopped on such a page, but is kept for
fidelity. -/
def individualsRowLoop (currentYear : Nat) (headingInPageText : Bool) :
    List TableRow → List IndividualRecord
  | [] => []
  | row :: rest =>
    let cleaned := row.map cleanCell
    let id_val_raw := rowIdRaw cleaned
    if isDigitStr id_val_raw then
      mkIndividualRecord currentYear (pyInt id_val_raw) cleaned ::
        individualsRowLoop currentYear headingInPageText rest
    else if headingInPageText then []
    else individualsRowLoop currentYear headingInPageText rest

/-- Header string of a candidate table (lines 59 and 152): space-joined cells
with None as "", lowercased. -/
def headerJoin (hdr : TableRow) : String :=
  pyLower (String.intercalate " " (hdr.map (fun c => c.getD "")))

/-- Table loop of convert_individuals_to_json for one page (lines 52-105): skip
tables with fewer than two rows, require the "(1)" "(3)" "(13)" header markers,
then run the row loop. -/
def individualsPageTables (currentYear : Nat) (headingInPageText : Bool)
    (tables : List Table) : List IndividualRecord :=
  List.flatten (tables.map (fun table =>
    match table with
    | [] => []
    | hdr :: body =>
      if (hdr :: body).length < 2 then []
      else
        let first_row_str := headerJoin hdr
        if containsSub first_row_str "(1)" && containsSub first_row_str "(3)" &&
            containsSub first_row_str "(13)" then
          individualsRowLoop currentYear headingInPageText body
        else []))

/-- Section-boundary heading literal of kdn_pdf_parser. -/
def GROUPS_HEADING : String := "B. GROUP"

/-- convert_individuals_to_json from src/KDN/kdn_pdf_parser.py lines 10-107,
over the page data pdfplumber yields. Python evaluates `"B. GROUP" in page_text`
on each page before scanning its tables; when extract_text returned None that
membership test raises TypeError, modelled as an Except error (the caller in
src/main.py catches it as a generic exception). -/
def convert_individuals_to_json (currentYear : Nat) :
    List Page → Except PyErr (List IndividualRecord)
  | [] => .ok []
  | page :: restPages =>
    match page.text with
    | none => .error .typeError
    | some page_text =>
      if containsSub page_text GROUPS_HEADING then .ok []
      else
        match convert_individuals_to_json currentYear restPages with
        | .error e => .error e
        | .ok more =>
          .ok (individualsPageTables currentYear (containsSub page_text GROUPS_HEADING)
                page.tables ++ more)

structure GroupRecord where
  ID : Nat
  REFERENCE_NUMBER : String
  NAME : String
  ALIAS : String
  OTHER_NAME : String
  ADDRESS : String
  LISTED_DATE : String
deriving DecidableEq

/-- Build one groups record from a cleaned row (kdn_pdf_parser lines 172-185):
right-pad to 7 cells with empty strings, then map positionally. -/
def mkGroupRecord (currentYear : Nat) (current_id : Nat) (cleaned : List String) :
    GroupRecord :=
  let padded := cleaned ++ List.replicate (7 - cleaned.length) ""
  { ID := current_id
    REFERENCE_NUMBER := orDash (padded.getD 1 "")
    NAME := orDash (padded.getD 2 "")
    ALIAS := orDash (padded.getD 3 "")
    OTHER_NAME := orDash (padded.getD 4 "")
    ADDRESS := orDash (padded.getD 5 "")
    LISTED_DATE := parse_date (padded.getD 6 "") currentYear }

/-- Row loop of convert_groups_to_json (lines 160-187): no section-boundary
check, non-data rows are simply skipped. -/
def groupsRowLoop (currentYear : Nat) : List TableRow → List GroupRecord
  | [] => []
  | row :: rest =>
    let cleaned := row.map cleanCell
    let id_val_raw := rowIdRaw cleaned
    if isDigitStr id_val_raw then
      mkGroupRecord currentYear (pyInt id_val_raw) cleaned :: groupsRowLoop currentYear rest
    else groupsRowLoop currentYear rest

/-- Table loop of convert_groups_to_json for one page (lines 146-187): the
required header markers are "(1)" "(4)" "(7)". -/
def groupsPageTables (currentYear : Nat) (tables : List Table) : List GroupRecord :=
  List.flatten (tables.map (fun table =>
    match table with
    | [] => []
    | hdr :: body =>
      if (hdr :: body).length < 2 then []
      else
        let first_row_str := headerJoin hdr
        if containsSub first_row_str "(1)" && containsSub first_row_str "(4)" &&
            containsSub first_row_str "(7)" then
          groupsRowLoop currentYear body
        else []))

/-- convert_groups_to_json from src/KDN/kdn_pdf_parser.py lines 109-190: iterate
page indices over `range(start_page_num, min(end_page_num + 1, len(pdf.pages)))`
(both arguments 0-indexed, end inclusive). -/
def convert_groups_to_json (currentYear : Nat) (pdfPages : List Page)
    (start_page_num end_page_num : Nat) : List GroupRecord :=
  List.flatten ((List.range' start_page_num
      (min (end_page_num + 1) pdfPages.length - start_page_num)).map
    (fun page_index =>
      match pdfPages.get? page_index with
      | some page => groupsPageTables currentYear page.tables
      | none => []))

/-! XML record normalization (src/UNSC/unsc_xml_parser.py). The loosely-typed
nested dict/list/str values produced by xmltodict are modelled as a Python value
tree; dicts are ordered association lists, as in Python. -/

inductive PyVal where
  | none
  | str (s : String)
  | int (n : Int)
  | list (xs : List PyVal)
  | dict (entries : List (String × PyVal))

/-- Python `d.get(k)`: the value of the first entry with key `k`, or None. -/
def dictGet (entries : List (String × PyVal)) (k : String) : PyVal :=
  match entries.find? (fun p => p.1 == k) with
  | Option.some p => p.2
  | Option.none => PyVal.none

/-- Python `k in d`. -/
def dictHas (entries : List (String × PyVal)) (k : String) : Bool :=
  entries.any (fun p => p.1 == k)

/-- Python `d[k] = v`: replace in place when the key exists, else append. -/
def dictAssign (entries : List (String × PyVal)) (k : String) (v : PyVal) :
    List (String × PyVal) :=
  if dictHas entries k then entries.map (fun p => if p.1 == k then (k, v) else p)
  else entries ++ [(k, v)]

/-- Lookup in a string-valued dict (the temp_address mapping). -/
def strDictGet (entries : List (String × String)) (k : String) : String :=
  match entries.find? (fun p => p.1 == k) with
  | Option.some p => p.2
  | Option.none => ""

/-- Python truthiness of a value. -/
def pyTruthy : PyVal → Bool
  | .none => false
  | .str s => !(s == "")
  | .int n => !(n == 0)
  | .list xs => !xs.isEmpty
  | .dict es => !es.isEmpty

/-- get_safe_string from src/UNSC/unsc_xml_parser.py lines 6-13. -/
def get_safe_string : PyVal → String
  | .str s => pyStrip s
  | _ => ""

/-- get_safe_int from src/UNSC/unsc_xml_parser.py lines 15-27: numeric text, or
numeric text under the "#text" key of an attribute dict, becomes an int;
everything else becomes the empty string. -/
def get_safe_int : PyVal → PyVal
  | .dict es =>
    match dictGet es "#text" with
    | .str t => if isDigitStr t then .int (pyInt t) else .str ""
    | _ => .str ""
  | .str s => if isDigitStr s then .int (pyInt s) else .str ""
  | _ => .str ""

/-- Scalar fields included only when non-empty (unsc_xml_parser lines 38-42). -/
def fields_to_omit_if_empty : List String :=
  ["DATAID", "VERSIONNUM", "FIRST_NAME", "SECOND_NAME", "THIRD_NAME",
   "UN_LIST_TYPE", "REFERENCE_NUMBER", "LISTED_ON", "GENDER",
   "NAME_ORIGINAL_SCRIPT", "COMMENTS1"]

/-- One step of the scalar-fields loop (lines 44-53). -/
def omitIfEmptyStep (individual_data : List (String × PyVal))
    (acc : List (String × PyVal)) (field : String) : List (String × PyVal) :=
  let value := dictGet individual_data field
  if field == "DATAID" then
    match get_safe_int value with
    | .int n => dictAssign acc field (.int n)
    | _ => acc
  else
    let safe_value := get_safe_string value
    if safe_value == "" then acc else dictAssign acc field (.str safe_value)

/-- TITLE extraction (lines 56-63). -/
def titleValueOf (individual_data : List (String × PyVal)) : String :=
  match dictGet individual_data "TITLE" with
  | .dict es => if dictHas es "VALUE" then get_safe_string (dictGet es "VALUE") else ""
  | .str s => get_safe_string (.str s)
  | _ => ""

/-- DESIGNATION values extraction (lines 65-78): a list VALUE keeps its nonempty
stripped members, a single VALUE or bare string becomes a one-element list when
nonempty, everything else is empty. -/
def designationValuesOf (individual_data : List (String × PyVal)) : List String :=
  match dictGet individual_data "DESIGNATION" with
  | .dict es =>
    if dictHas es "VALUE" then
      match dictGet es "VALUE" with
      | .list vs => (vs.map get_safe_string).filter (fun s => !(s == ""))
      | v =>
        let single_val := get_safe_string v
        if single_val == "" then [] else [single_val]
    else []
  | .str s =>
    let single_val := get_safe_string (.str s)
    if single_val == "" then [] else [single_val]
  | _ => []

/-- Single-string "VALUE" wrapper extraction shared by NATIONALITY (lines 82-88)
and LIST_TYPE (lines 90-96). -/
def valueFieldOf (individual_data : List (String × PyVal)) (key : String) : String :=
  match dictGet individual_data key with
  | .dict es => if dictHas es "VALUE" then get_safe_string (dictGet es "VALUE") else ""
  | _ => ""

/-- LAST_DAY_UPDATED values extraction (lines 98-107). -/
def updatedDatesOf (individual_data : List (String × PyVal)) : List String :=
  match dictGet individual_data "LAST_DAY_UPDATED" with
  | .dict es =>
    if dictHas es "VALUE" then
      match dictGet es "VALUE" with
      | .list vs => (vs.map get_safe_string).filter (fun s => !(s == ""))
      | v =>
        let single_date := get_safe_string v
        if single_date == "" then [] else [single_date]
    else []
  | _ => []

/-- One alias record (lines 120-133): kept only when ALIAS_NAME is nonempty. -/
def aliasEntryOf (es : List (String × PyVal)) : Option PyVal :=
  let alias_name := get_safe_string (dictGet es "ALIAS_NAME")
  if alias_name == "" then Option.none
  else Option.some (PyVal.dict
    [("QUALITY", .str (get_safe_string (dictGet es "QUALITY"))),
     ("ALIAS_NAME", .str alias_name)])

/-- INDIVIDUAL_ALIAS processing (lines 114-133). -/
def processedAliasesOf (individual_data : List (String × PyVal)) : List PyVal :=
  let aliases := dictGet individual_data "INDIVIDUAL_ALIAS"
  if pyTruthy aliases then
    match aliases with
    | .list xs =>
      xs.filterMap (fun a => match a with | .dict es => aliasEntryOf es | _ => Option.none)
    | .dict es => match aliasEntryOf es with | Option.some v => [v] | Option.none => []
    | _ => []
  else []

/-- INDIVIDUAL_ADDRESS temp mapping (lines 141-148). -/
def tempAddressOf (individual_data : List (String × PyVal)) : List (String × String) :=
  let g := fun (k : String) =>
    match dictGet individual_data "INDIVIDUAL_ADDRESS" with
    | .dict es => get_safe_string (dictGet es k)
    | _ => ""
  [("COUNTRY", g "COUNTRY"), ("CITY", g "CITY"), ("STATE_PROVINCE", g "STATE_PROVINCE"),
   ("STREET", g "STREET"), ("ZIP_CODE", g "ZIP_CODE"), ("NOTE", g "NOTE")]

/-- Keep test for INDIVIDUAL_DATE_OF_BIRTH entries: `v != "" and v != 0`. -/
def dobKeep : PyVal → Bool
  | .str s => !(s == "")
  | .int n => !(n == 0)
  | _ => true

/-- INDIVIDUAL_DATE_OF_BIRTH temp mapping (lines 157-165). -/
def tempDobOf (individual_data : List (String × PyVal)) : List (String × PyVal) :=
  let dob := dictGet individual_data "INDIVIDUAL_DATE_OF_BIRTH"
  let gs := fun (k : String) => match dob with
    | .dict es => PyVal.str (get_safe_string (dictGet es k))
    | _ => PyVal.str ""
  let gi := fun (k : String) => match dob with
    | .dict es => get_safe_int (dictGet es k)
    | _ => PyVal.str ""
  [("TYPE_OF_DATE", gs "TYPE_OF_DATE"), ("DATE", gs "DATE"), ("YEAR", gi "YEAR"),
   ("FROM_YEAR", gi "FROM_YEAR"), ("TO_YEAR", gi "TO_YEAR"), ("NOTE", gs "NOTE")]

/-- One cleaned place-of-birth record (lines 177-195). -/
def pobEntryOf (es : List (String × PyVal)) : Option PyVal :=
  let temp := [("CITY", get_safe_string (dictGet es "CITY")),
               ("STATE_PROVINCE", get_safe_string (dictGet es "STATE_PROVINCE")),
               ("COUNTRY", get_safe_string (dictGet es "COUNTRY")),
               ("NOTE", get_safe_string (dictGet es "NOTE"))]
  let cleaned := temp.filter (fun p => !(p.2 == ""))
  if cleaned.isEmpty then Option.none
  else Option.some (PyVal.dict (cleaned.map (fun p => (p.1, PyVal.str p.2))))

/-- INDIVIDUAL_PLACE_OF_BIRTH processing (lines 171-195). -/
def processedPobsOf (individual_data : List (String × PyVal)) : List PyVal :=
  let pob := dictGet individual_data "INDIVIDUAL_PLACE_OF_BIRTH"
  if pyTruthy pob then
    match pob with
    | .list xs =>
      xs.filterMap (fun p => match p with | .dict es => pobEntryOf es | _ => Option.none)
    | .dict es => match pobEntryOf es with | Option.some v => [v] | Option.none => []
    | _ => []
  else []

/-- One cleaned document record (lines 211-233). -/
def documentEntryOf (es : List (String × PyVal)) : Option PyVal :=
  let temp := [("TYPE_OF_DOCUMENT", get_safe_string (dictGet es "TYPE_OF_DOCUMENT")),
               ("NUMBER", get_safe_string (dictGet es "NUMBER")),
               ("ISSUING_COUNTRY", get_safe_string (dictGet es "ISSUING_COUNTRY")),
               ("DATE_OF_ISSUE", get_safe_string (dictGet es "DATE_OF_ISSUE")),
               ("EXPIRY_DATE", get_safe_string (dictGet es "EXPIRY_DATE")),
               ("NOTE", get_safe_string (dictGet es "NOTE"))]
  let cleaned := temp.filter (fun p => !(p.2 == ""))
  if cleaned.isEmpty then Option.none
  else Option.some (PyVal.dict (cleaned.map (fun p => (p.1, PyVal.str p.2))))

/-- INDIVIDUAL_DOCUMENT processing (lines 205-233). -/
def processedDocumentsOf (individual_data : List (String × PyVal)) : List PyVal :=
  let documents := dictGet individual_data "INDIVIDUAL_DOCUMENT"
  if pyTruthy documents then
    match documents with
    | .list xs =>
      xs.filterMap (fun d => match d with | .dict es => documentEntryOf es | _ => Option.none)
    | .dict es => match documentEntryOf es with | Option.some v => [v] | Option.none => []
    | _ => []
  else []

/-- transform_individual_data from src/UNSC/unsc_xml_parser.py lines 29-246,
assembled from the per-field blocks above in source order. -/
def transform_individual_data (individual_data : List (String × PyVal)) :
    List (String × PyVal) :=
  let t1 := fields_to_omit_if_empty.foldl (omitIfEmptyStep individual_data) []
  let title_value := titleValueOf individual_data
  let t2 := if title_value == "" then t1
    else dictAssign t1 "TITLE" (.dict [("VALUE", .str title_value)])
  let designation_values := designationValuesOf individual_data
  let t3 := if designation_values.isEmpty then t2
    else dictAssign t2 "DESIGNATION"
      (.dict [("VALUE", .list (designation_values.map PyVal.str))])
  let nationality_value := valueFieldOf individual_data "NATIONALITY"
  let t4 := if nationality_value == "" then t3
    else dictAssign t3 "NATIONALITY" (.dict [("VALUE", .str nationality_value)])
  let list_type_value := valueFieldOf individual_data "LIST_TYPE"
  let t5 := if list_type_value == "" then t4
    else dictAssign t4 "LIST_TYPE" (.dict [("VALUE", .str list_type_value)])
  let updated_dates := updatedDatesOf individual_data
  let t6 := if updated_dates.isEmpty then t5
    else if updated_dates.length == 1 then
      dictAssign t5 "LAST_DAY_UPDATED" (.dict [("VALUE", .str (updated_dates.headD ""))])
    else dictAssign t5 "LAST_DAY_UPDATED" (.dict [("VALUE", .list (updated_dates.map PyVal.str))])
  let processed_aliases := processedAliasesOf individual_data
  let t7 := if processed_aliases.isEmpty then
      dictAssign t6 "INDIVIDUAL_ALIAS" (.dict [("QUALITY", .str ""), ("ALIAS_NAME", .str "")])
    else dictAssign t6 "INDIVIDUAL_ALIAS" (.list processed_aliases)
  let temp_address := tempAddressOf individual_data
  let cleaned_address := temp_address.filter (fun p => !(p.2 == ""))
  let t8 := if !cleaned_address.isEmpty then
      dictAssign t7 "INDIVIDUAL_ADDRESS"
        (.dict (cleaned_address.map (fun p => (p.1, PyVal.str p.2))))
    else if temp_address.any (fun p => p.1 == "COUNTRY") &&
        strDictGet temp_address "COUNTRY" == "" then
      dictAssign t7 "INDIVIDUAL_ADDRESS" (.dict [("COUNTRY", .str "")])
    else t7
  let temp_dob := tempDobOf individual_data
  let cleaned_dob := temp_dob.filter (fun p => dobKeep p.2)
  let t9 := if cleaned_dob.isEmpty then t8
    else dictAssign t8 "INDIVIDUAL_DATE_OF_BIRTH" (.dict cleaned_dob)
  let processed_pobs := processedPobsOf individual_data
  let t10 := if processed_pobs.isEmpty then
      dictAssign t9 "INDIVIDUAL_PLACE_OF_BIRTH" (.dict [("COUNTRY", .str "")])
    else if processed_pobs.length == 1 then
      dictAssign t9 "INDIVIDUAL_PLACE_OF_BIRTH" (processed_pobs.headD PyVal.none)
    else dictAssign t9 "INDIVIDUAL_PLACE_OF_BIRTH" (.list processed_pobs)
  let processed_documents := processedDocumentsOf individual_data
  let t11 := if processed_documents.isEmpty then
      dictAssign t10 "INDIVIDUAL_DOCUMENT" (.str "")
    else if processed_documents.length == 1 then
      dictAssign t10 "INDIVIDUAL_DOCUMENT" (processed_documents.headD PyVal.none)
    else dictAssign t10 "INDIVIDUAL_DOCUMENT" (.list processed_documents)
  let t12 := dictAssign t11 "SORT_KEY"
    (.str (get_safe_string (dictGet individual_data "SORT_KEY")))
  dictAssign t12 "SORT_KEY_LAST_MOD"
    (.str (get_safe_string (dictGet individual_data "SORT_KEY_LAST_MOD")))

/-! Pipeline drivers (src/main.py, non-local S3 mode; the local mode differs
only in which state/publish collaborators it calls). External effects are
supplied through an environment record: what the scrapers found, whether the
HTTP download succeeded and what it produced, what the fingerprint store held,
and whether each store write/upload succeeds. -/

/-- Python `current != last` where `last` may be None (a string never equals
None). This is the change-detection comparison of src/main.py lines 66 and 133. -/
def pyNe (current : String) (stored : Option String) : Bool :=
  match stored with
  | Option.none => true
  | Option.some s => current != s

/-- Parameter names of download_and_convert_xml_to_json as defined in
src/UNSC/unsc_xml_parser.py line 367. -/
def unsc_parser_param_names : List String := ["xml_url", "output_json_path"]

/-- Keyword arguments used at the call site src/main.py line 71. -/
def unsc_main_call_kwargs : List String := ["xml_content_bytes"]

/-- Whether the call in src/main.py line 71 raises TypeError: Python raises
`unexpected keyword argument` when a keyword is not among the callee's
parameters. -/
def unsc_call_raises_type_error : Bool :=
  unsc_main_call_kwargs.any (fun k => !(unsc_parser_param_names.contains k))

structure UnscEnv where
  /-- Result of get_xml_link (None on scrape failure). -/
  xmlLink : Option String
  /-- Whether the raw-XML GET of main.py line 45 succeeds. -/
  downloadOk : Bool
  /-- calculate_sha256 of the downloaded bytes. -/
  currentHash : String
  /-- read_s3_state_file result (None when absent or unreadable). -/
  storedHash : Option String
  /-- Truthiness of the value the convert call would return if it did not raise. -/
  convertTruthy : Bool
  /-- Result of upload_json_to_s3. -/
  uploadOk : Bool
  /-- Result of write_s3_state_file. -/
  writeOk : Bool

structure UnscResult where
  /-- The change-detection comparison succeeded and the processing branch ran. -/
  changeDetected : Bool
  /-- upload_json_to_s3 was called and returned True. -/
  published : Bool
  /-- Value write_s3_state_file successfully stored, if any. -/
  hashWritten : Option String
  /-- An exception was caught by the blanket handlers of main.py lines 94-97. -/
  errored : Bool
deriving DecidableEq

/-- run_unsc_sanction_list_process from src/main.py lines 26-97 (S3 mode). -/
def run_unsc_sanction_list_process (env : UnscEnv) : UnscResult :=
  match env.xmlLink with
  | Option.none => ⟨false, false, Option.none, false⟩
  | Option.some _ =>
    if !env.downloadOk then ⟨false, false, Option.none, true⟩
    else if pyNe env.currentHash env.storedHash then
      if unsc_call_raises_type_error then ⟨true, false, Option.none, true⟩
      else if env.convertTruthy then
        if env.uploadOk then
          ⟨true, true, if env.writeOk then Option.some env.currentHash else Option.none, false⟩
        else ⟨true, false, Option.none, false⟩
      else ⟨true, false, Option.none, false⟩
    else ⟨false, false, Option.none, false⟩

structure KdnEnv where
  /-- Result of get_current_kdn_xml_url (None on scrape failure). -/
  currentUrl : Option String
  /-- read_s3_state_file result for the KDN URL key (None when absent). -/
  storedUrl : Option String
  /-- Result of get_kdn_pdf_content: the PDF's pages, or None when the download
  failed (the function returns None on any error). -/
  pdf : Option (List Page)
  /-- Result of write_s3_state_file for the URL key. -/
  writeStateOk : Bool
  /-- Result of upload_json_to_s3 for the individuals JSON. -/
  uploadIndividualsOk : Bool
  /-- Result of upload_json_to_s3 for the groups JSON. -/
  uploadGroupsOk : Bool
  /-- Year of the run date, consumed by parse_date. -/
  curYear : Nat

structure KdnResult where
  /-- The URL comparison differed and the update branch ran. -/
  changeDetected : Bool
  /-- write_s3_state_file was called for the new URL. -/
  stateWriteAttempted : Bool
  /-- Value the fingerprint store now holds from this run, if the write succeeded. -/
  fingerprintWritten : Option String
  /-- Individuals JSON upload was reached and returned True. -/
  individualsPublished : Bool
  /-- Groups JSON upload was reached and returned True. -/
  groupsPublished : Bool
  /-- An exception was caught by the blanket handler of main.py lines 190-191. -/
  errored : Bool
deriving DecidableEq

/-- run_kdn_sanction_list_process from src/main.py lines 100-191 (S3 mode).
Note the source's ordering: as soon as the changed URL's PDF content downloads,
the new URL is written to the fingerprint store (lines 138-147), and only
afterwards are the individuals and groups extracted and uploaded (lines
153-188). An exception in extraction is caught by the blanket handler, after
the state write already happened. -/
def run_kdn_sanction_list_process (env : KdnEnv) : KdnResult :=
  match env.currentUrl with
  | Option.none => ⟨false, false, Option.none, false, false, false⟩
  | Option.some current_xml_url =>
    if pyNe current_xml_url env.storedUrl then
      match env.pdf with
      | Option.none => ⟨true, false, Option.none, false, false, false⟩
      | Option.some pages =>
        let fp := if env.writeStateOk then Option.some current_xml_url else Option.none
        match convert_individuals_to_json env.curYear pages with
        | .error _ => ⟨true, true, fp, false, false, true⟩
        | .ok individual_data =>
          let indPub := !individual_data.isEmpty && env.uploadIndividualsOk
          let group_data := convert_groups_to_json env.curYear pages 11 13
          let grpPub := !group_data.isEmpty && env.uploadGroupsOk
          ⟨true, true, fp, indPub, grpPub, false⟩
    else ⟨false, false, Option.none, false, false, false⟩

/-! Concrete fixtures used by witnesses and counterexamples. -/

/-- A header row carrying the individuals markers "(1)", "(3)", "(13)". -/
def indHeaderRow : TableRow :=
  [Option.some "(1)", Option.some "(2)", Option.some "(3)", Option.some "(4)",
   Option.some "(5)", Option.some "(6)", Option.some "(7)", Option.some "(8)",
   Option.some "(9)", Option.some "(10)", Option.some "(11)", Option.some "(12)",
   Option.some "(13)"]

/-- A header row carrying the groups markers "(1)", "(4)", "(7)". -/
def grpHeaderRow : TableRow :=
  [Option.some "(1)", Option.some "(2)", Option.some "(3)", Option.some "(4)",
   Option.some "(5)", Option.some "(6)", Option.some "(7)"]

/-- A well-formed individuals data row with identifier "1.". -/
def rowAli : TableRow :=
  [Option.some "1.", Option.some "KDN.A1", Option.some "Ali Bin Abu", Option.none,
   Option.none, Option.some "3.7.1995", Option.some "Kuala Lumpur", Option.none,
   Option.some "Malaysia", Option.none, Option.none, Option.none, Option.some "29.10.14"]

/-- The record rowAli yields under a 2026 run date. -/
def recAli : IndividualRecord :=
  { ID := 1, REFERENCE_NUMBER := "KDN.A1", NAME := "Ali Bin Abu", SALUTATION := "-",
    OCCUPATION := "-", DATE_OF_BIRTH := "3 July 1995", BIRTH_PLACE := "Kuala Lumpur",
    OTHER_NAME := "-", NATIONALITY := "Malaysia", PASSPORT_NUMBER := "-", ID_NUMBER := "-",
    ADDRESS := "-", LISTED_DATE := "29 October 2014" }

/-- A page holding one valid individuals table whose extract_text came back None. -/
def pageNoText : Page := ⟨[[indHeaderRow, rowAli]], Option.none⟩

/-- The same page with empty (but present) text. -/
def pageEmptyText : Page := ⟨[[indHeaderRow, rowAli]], Option.some ""⟩

/-- A page whose text contains the groups heading and which still carries a table
matching the individuals header markers. -/
def pageHeadingWithTable : Page :=
  ⟨[[indHeaderRow,
     [Option.some "7.", Option.some "KDN.B9", Option.some "Later Person", Option.none,
      Option.none, Option.none, Option.none, Option.none, Option.none, Option.none,
      Option.none, Option.none, Option.none]]],
   Option.some "B. GROUP"⟩

/-- A data row whose column-0 identifier cleans to the digit string "0". -/
def rowZero : TableRow :=
  [Option.some "0", Option.some "R0", Option.some "Zero Person", Option.none, Option.none,
   Option.none, Option.none, Option.none, Option.none, Option.none, Option.none,
   Option.none, Option.none]

/-- The record rowZero yields: its ID is 0, which is not a positive integer. -/
def recZero : IndividualRecord :=
  { ID := 0, REFERENCE_NUMBER := "R0", NAME := "Zero Person", SALUTATION := "-",
    OCCUPATION := "-", DATE_OF_BIRTH := "-", BIRTH_PLACE := "-", OTHER_NAME := "-",
    NATIONALITY := "-", PASSPORT_NUMBER := "-", ID_NUMBER := "-", ADDRESS := "-",
    LISTED_DATE := "-" }

/-- Environment of a UNSC run with changed content: link found, download fine,
fresh hash differs from the stored one, every collaborator would succeed. -/
def envUnscChanged : UnscEnv :=
  ⟨Option.some "https://scsanctions.un.org/resources/xml/en/consolidated.xml",
   true, "h2", Option.some "h1", true, true, true⟩

/-- The same run on a first execution (no stored hash). -/
def envUnscFirstRun : UnscEnv :=
  ⟨Option.some "https://scsanctions.un.org/resources/xml/en/consolidated.xml",
   true, "h2", Option.none, true, true, true⟩

/-- KDN environment: URL changed, PDF download succeeds but its pages yield no
records, collaborators all succeed. -/
def envKdnEmptyPdf : KdnEnv :=
  ⟨Option.some "https://www.moha.gov.my/new.xml",
   Option.some "https://www.moha.gov.my/old.xml",
   Option.some [], true, true, true, 2026⟩

/-- A one-table groups page. -/
def pageGrpOne : Page :=
  ⟨[[grpHeaderRow,
     [Option.some "2.", Option.some "KDN.B2", Option.some "Pasukan X", Option.none,
      Option.none, Option.none, Option.some "1.2.2003"]]],
   Option.some "B. GROUP"⟩

/-- The record pageGrpOne yields. -/
def recGrp : GroupRecord :=
  { ID := 2, REFERENCE_NUMBER := "KDN.B2", NAME := "Pasukan X", ALIAS := "-",
    OTHER_NAME := "-", ADDRESS := "-", LISTED_DATE := "1 February 2003" }

/-- Another groups page, used as an out-of-range page that must not be read. -/
def pageGrpOther : Page :=
  ⟨[[grpHeaderRow,
     [Option.some "3.", Option.some "KDN.B3", Option.some "Other", Option.none,
      Option.none, Option.none, Option.none]]],
   Option.some "x"⟩

/-! Helper lemmas about the string scanners and digit arithmetic. -/

theorem takeWhileAppOf (p : Char → Bool) (xs : List Char) (c : Char) (ys : List Char)
    (h1 : ∀ x ∈ xs, p x = true) (h2 : p c = false) :
    (xs ++ c :: ys).takeWhile p = xs := by
  induction xs with
  | nil => simp [List.takeWhile_cons, h2]
  | cons a t ih =>
    have ha : p a = true := h1 a (by simp)
    simp [List.takeWhile_cons, ha, ih (fun x hx => h1 x (by simp [hx]))]

theorem dropWhileAppOf (p : Char → Bool) (xs : List Char) (c : Char) (ys : List Char)
    (h1 : ∀ x ∈ xs, p x = true) (h2 : p c = false) :
    (xs ++ c :: ys).dropWhile p = c :: ys := by
  induction xs with
  | nil => simp [List.dropWhile_cons, h2]
  | cons a t ih =>
    have ha : p a = true := h1 a (by simp)
    simp [List.dropWhile_cons, ha, ih (fun x hx => h1 x (by simp [hx]))]

theorem pyIntStrLenAux_small (fuel n : Nat) (h : n < 10) : pyIntStrLenAux fuel n = 1 := by
  cases fuel with
  | zero => rfl
  | succ f => simp [pyIntStrLenAux, h]

theorem pyIntStrLenAux_ge_one (fuel n : Nat) : 1 ≤ pyIntStrLenAux fuel n := by
  cases fuel with
  | zero => simp [pyIntStrLenAux]
  | succ f =>
    simp only [pyIntStrLenAux]
    split <;> omega

theorem pyIntStrLenAux_two (fuel n : Nat) (hf : 1 ≤ fuel) (h1 : 10 ≤ n) (h2 : n ≤ 99) :
    pyIntStrLenAux fuel n = 2 := by
  cases fuel with
  | zero => omega
  | succ f =>
    have : ¬ n < 10 := by omega
    simp [pyIntStrLenAux, this, pyIntStrLenAux_small f (n / 10) (by omega)]

theorem pyIntStrLenAux_ge_three (fuel n : Nat) (h1 : 100 ≤ n) (hf : n / 10 ≤ fuel) :
    3 ≤ pyIntStrLenAux (fuel + 1) n := by
  have hn : ¬ n < 10 := by omega
  cases fuel with
  | zero => omega
  | succ f =>
    have hm : ¬ n / 10 < 10 := by omega
    have := pyIntStrLenAux_ge_one f (n / 10 / 10)
    simp only [pyIntStrLenAux, hn, if_false, hm]
    omega

theorem pyIntStrLen_eq_two_iff (n : Nat) : pyIntStrLen n = 2 ↔ 10 ≤ n ∧ n ≤ 99 := by
  unfold pyIntStrLen
  by_cases h1 : n < 10
  · rw [pyIntStrLenAux_small n n h1]
    constructor
    · omega
    · intro h; omega
  · by_cases h2 : n ≤ 99
    · rw [pyIntStrLenAux_two n n (by omega) (by omega) h2]
      constructor
      · intro _; exact ⟨by omega, h2⟩
      · intro _; rfl
    · obtain ⟨f, rfl⟩ : ∃ f, n = f + 1 := ⟨n - 1, by omega⟩
      have := pyIntStrLenAux_ge_three f (f + 1) (by omega) (by omega)
      constructor
      · omega
      · intro h; omega

theorem pyIsDigit_bounds {c : Char} (h : pyIsDigit c = true) :
    48 ≤ c.toNat ∧ c.toNat ≤ 57 := by
  unfold pyIsDigit at h
  simp [Bool.and_eq_true] at h
  exact h

theorem pyIntL_le_99 (l : List Char) (h : ∀ c ∈ l, pyIsDigit c = true)
    (hl : l.length ≤ 2) : pyIntL l ≤ 99 := by
  match l with
  | [] => simp [pyIntL]
  | [a] =>
    have := pyIsDigit_bounds (h a (by simp))
    simp [pyIntL]
    omega
  | [a, b] =>
    have ha := pyIsDigit_bounds (h a (by simp))
    have hb := pyIsDigit_bounds (h b (by simp))
    simp [pyIntL]
    omega
  | a :: b :: c :: t => simp at hl

theorem isDigitStr_all {s : String} (h : isDigitStr s = true) :
    ∀ c ∈ s.data, pyIsDigit c = true := by
  unfold isDigitStr at h
  simp [Bool.and_eq_true, List.all_eq_true] at h
  exact h.2

theorem isDigitStr_ne_nil {s : String} (h : isDigitStr s = true) : s.data ≠ [] := by
  unfold isDigitStr at h
  simp [Bool.and_eq_true] at h
  exact h.1

theorem matchDMY_groups (d m y : List Char)
    (hd : ∀ c ∈ d, pyIsDigit c = true) (hd1 : d.length = 1 ∨ d.length = 2)
    (hm : ∀ c ∈ m, pyIsDigit c = true) (hm1 : m.length = 1 ∨ m.length = 2)
    (hy : ∀ c ∈ y, pyIsDigit c = true) (hy1 : 2 ≤ y.length) (hy2 : y.length ≤ 4) :
    matchDMY (d ++ '.' :: (m ++ '.' :: y)) = Option.some (d, m, y) := by
  have hdot : pyIsDigit '.' = false := by decide
  unfold matchDMY
  rw [takeWhileAppOf _ _ _ _ hd hdot, dropWhileAppOf _ _ _ _ hd hdot]
  have hc1 : ¬ (d.length = 0 || decide (2 < d.length)) = true := by
    rcases hd1 with h | h <;> simp [h]
  rw [if_neg hc1]
  simp only []
  rw [takeWhileAppOf _ _ _ _ hm hdot, dropWhileAppOf _ _ _ _ hm hdot]
  have hc2 : ¬ (m.length = 0 || decide (2 < m.length)) = true := by
    rcases hm1 with h | h <;> simp [h]
  rw [if_neg hc2]
  show (if (List.takeWhile pyIsDigit y).length < 2 then none
        else some (d, m, List.take 4 (List.takeWhile pyIsDigit y))) = some (d, m, y)
  rw [List.takeWhile_eq_self_iff.mpr hy]
  have hc3 : ¬ (y.length < 2) := by omega
  rw [if_neg hc3]
  rw [List.take_of_length_le hy2]

theorem parse_date_matched (s d m y : String) (cy : Nat)
    (h1 : s ≠ "") (h2 : pyStrip s ≠ "-") (h3 : pyStrip s ≠ "")
    (hc : pyStrip (pyRemoveSpaces s) = d ++ "." ++ m ++ "." ++ y)
    (hd : isDigitStr d = true) (hd1 : d.length = 1 ∨ d.length = 2)
    (hm : isDigitStr m = true) (hm1 : m.length = 1 ∨ m.length = 2)
    (hy : isDigitStr y = true) (hy1 : 2 ≤ y.length) (hy2 : y.length ≤ 4) :
    parse_date s cy = toString (pyInt d) ++ " " ++ monthGet (pyInt m) ++ " " ++
      toString (if pyIntStrLen (pyInt y) = 2 then
          if cy % 100 + 5 < pyInt y then 1900 + pyInt y else 2000 + pyInt y
        else pyInt y) := by
  unfold parse_date
  rw [if_neg (by simp [h1, h2, h3])]
  have hdata : (d ++ "." ++ m ++ "." ++ y).data = d.data ++ '.' :: (m.data ++ '.' :: y.data) := by
    show (((d.data ++ ['.']) ++ m.data) ++ ['.']) ++ y.data =
      d.data ++ '.' :: (m.data ++ '.' :: y.data)
    simp [List.append_assoc]
  have hmatch : matchDMY (pyStrip (pyRemoveSpaces s)).data =
      Option.some (d.data, m.data, y.data) := by
    rw [hc, hdata]
    exact matchDMY_groups d.data m.data y.data (isDigitStr_all hd) hd1
      (isDigitStr_all hm) hm1 (isDigitStr_all hy) hy1 hy2
  simp only [hmatch]
  rfl

theorem c8_two_digit_century :
    (∀ (s d m y : String) (cy : Nat),
      s ≠ "" → pyStrip s ≠ "-" → pyStrip s ≠ "" →
      pyStrip (pyRemoveSpaces s) = d ++ "." ++ m ++ "." ++ y →
      isDigitStr d = true → (d.length = 1 ∨ d.length = 2) →
      isDigitStr m = true → (m.length = 1 ∨ m.length = 2) →
      isDigitStr y = true → y.length = 2 → 10 ≤ pyInt y →
      parse_date s cy = toString (pyInt d) ++ " " ++ monthGet (pyInt m) ++ " " ++
        toString (if cy % 100 + 5 < pyInt y then 1900 + pyInt y else 2000 + pyInt y)) ∧
    parse_date "1.1.26" 2026 = "1 January 2026" ∧
    parse_date "1.1.26" 2006 = "1 January 1926" := by
  refine ⟨?_, by decide, by decide⟩
  intro s d m y cy h1 h2 h3 hc hd hd1 hm hm1 hy hy2 hylow
  have h99 : pyInt y ≤ 99 := pyIntL_le_99 y.data (isDigitStr_all hy) hy2.le
  rw [parse_date_matched s d m y cy h1 h2 h3 hc hd hd1 hm hm1 hy (by omega) (by omega)]
  rw [if_pos ((pyIntStrLen_eq_two_iff _).mpr ⟨hylow, h99⟩)]

theorem c9_valid_dates :
    (∀ (s d m y : String) (cy : Nat),
      s ≠ "" → pyStrip s ≠ "-" → pyStrip s ≠ "" →
      pyStrip (pyRemoveSpaces s) = d ++ "." ++ m ++ "." ++ y →
      isDigitStr d = true → (d.length = 1 ∨ d.length = 2) →
      1 ≤ pyInt d → pyInt d ≤ 31 →
      isDigitStr m = true → (m.length = 1 ∨ m.length = 2) →
      1 ≤ pyInt m → pyInt m ≤ 12 →
      isDigitStr y = true → y.length = 4 →
      ¬ (10 ≤ pyInt y ∧ pyInt y ≤ 99) →
      parse_date s cy =
        toString (pyInt d) ++ " " ++ monthGet (pyInt m) ++ " " ++ toString (pyInt y)) ∧
    (∀ cy : Nat, parse_date "" cy = "-") ∧
    (∀ (s : String) (cy : Nat), pyStrip s = "-" → parse_date s cy = "-") ∧
    (∀ (s : String) (cy : Nat), s ≠ "" → pyStrip s ≠ "-" → pyStrip s ≠ "" →
      matchDMY (pyStrip (pyRemoveSpaces s)).data = Option.none →
      matchDMonY (pyStrip s).data = false →
      parse_date s cy = s) := by
  refine ⟨?_, fun cy => rfl, ?_, ?_⟩
  · intro s d m y cy h1 h2 h3 hc hd hd1 _ _ hm hm1 _ _ hy hy4 hyr
    rw [parse_date_matched s d m y cy h1 h2 h3 hc hd hd1 hm hm1 hy (by omega) (by omega)]
    rw [if_neg (fun hcontra => hyr ((pyIntStrLen_eq_two_iff _).mp hcontra))]
  · intro s cy h
    unfold parse_date
    rw [if_pos (by simp [h])]
  · intro s cy h1 h2 h3 hno hmon
    unfold parse_date
    rw [if_neg (by simp [h1, h2, h3])]
    simp only [hno, hmon]
    simp

theorem c8_counterexample :
    parse_date "1.1.07" 2026 = "1 January 7" ∧
    "1 January 7" ≠ "1 January 2007" ∧ "1 January 7" ≠ "1 January 1907" :=
  ⟨by decide, by decide, by decide⟩

theorem c9_counterexample :
    parse_date "1.1.0061" 2026 = "1 January 1961" ∧
    "1 January 1961" ≠ "1 January 61" ∧ "1 January 1961" ≠ "1 January 0061" :=
  ⟨by decide, by decide, by decide⟩

theorem c8_witness : parse_date "5.3.61" 2026 = "5 March 1961" := by
  have h := c8_two_digit_century.1 "5.3.61" "5" "3" "61" 2026 (by decide) (by decide)
    (by decide) (by decide) (by decide) (by decide) (by decide) (by decide) (by decide)
    (by decide) (by decide)
  rw [h]
  decide

theorem c9_witness :
    parse_date "3.7.1995" 2026 = "3 July 1995" ∧
    parse_date "circa 1960" 2026 = "circa 1960" ∧
    parse_date "  -  " 2026 = "-" := by
  refine ⟨?_, ?_, ?_⟩
  · have h := c9_valid_dates.1 "3.7.1995" "3" "7" "1995" 2026 (by decide) (by decide)
      (by decide) (by decide) (by decide) (by decide) (by decide) (by decide) (by decide)
      (by decide) (by decide) (by decide) (by decide) (by decide) (by decide)
    rw [h]
    decide
  · exact c9_valid_dates.2.2.2 "circa 1960" 2026 (by decide) (by decide) (by decide)
      (by decide) (by decide)
  · exact c9_valid_dates.2.2.1 "  -  " 2026 (by decide)

/-! Claim theorems. -/

/-- Helper: the keyword mismatch at src/main.py line 71 is real. -/
theorem unsc_call_raises : unsc_call_raises_type_error = true := rfl

/-- C4: the spec requires that a page whose extracted text is empty or None be
treated as carrying no boundary heading and scanned normally. The code does so
for the empty string, but for None the membership test `"B. GROUP" in page_text`
raises TypeError, aborting extraction: the code contradicts the spec's explicit
edge-case rule. -/
theorem c4_none_page_text_raises :
    convert_individuals_to_json 2026 [pageNoText] = .error .typeError ∧
    convert_individuals_to_json 2026 [pageEmptyText] = .ok [recAli] :=
  ⟨rfl, rfl⟩

/-- C5: once a page whose text contains "B. GROUP" is reached, the individuals
extractor emits nothing from that page or any later page: the run over
`pre ++ heading-page :: post` equals the run over `pre` alone. -/
theorem c5_groups_heading_stops_individuals (cy : Nat) (pre post : List Page) (p : Page)
    (t : String) (hp : p.text = Option.some t)
    (ht : containsSub t GROUPS_HEADING = true) :
    convert_individuals_to_json cy (pre ++ p :: post) =
      convert_individuals_to_json cy pre := by
  induction pre with
  | nil => simp [convert_individuals_to_json, hp, ht]
  | cons q pre ih =>
    simp only [List.cons_append, convert_individuals_to_json]
    cases hq : q.text with
    | none => rfl
    | some tq =>
      by_cases hh : containsSub tq GROUPS_HEADING = true
      · simp [hh]
      · simp only [Bool.not_eq_true] at hh
        simp [hh, ih]

/-- Witness for C5: a concrete two-page document where page 2 carries the heading
and a marker-matching table; the output equals that of page 1 alone, which is
the single record of page 1. -/
theorem c5_witness :
    convert_individuals_to_json 2026 [pageEmptyText, pageHeadingWithTable] =
      convert_individuals_to_json 2026 [pageEmptyText] ∧
    convert_individuals_to_json 2026 [pageEmptyText] = .ok [recAli] :=
  ⟨c5_groups_heading_stops_individuals 2026 [pageEmptyText] [] pageHeadingWithTable
      "B. GROUP" rfl rfl,
   rfl⟩

/-- C6 counterexample: the claim says a record is emitted only when the cleaned
column 0 denotes a positive integer, but the source's isdigit test accepts "0"
and `if current_id is not None` accepts the value 0, so this row is emitted with
ID 0. -/
theorem c6_counterexample :
    convert_individuals_to_json 2026
        [⟨[[indHeaderRow, rowZero]], Option.some "A. INDIVIDUAL"⟩] = .ok [recZero] ∧
    recZero.ID = 0 :=
  ⟨rfl, rfl⟩

/-- C6 amended: in both row loops a record is emitted for exactly those rows
whose column-0 cell, after cleanup and removal of '.' characters, is a nonempty
all-digits string (denoting a nonnegative integer); all other rows are dropped
and contribute nothing. -/
theorem c6_data_row_filter (cy : Nat) (rows : List TableRow) :
    individualsRowLoop cy false rows = rows.filterMap (fun row =>
      let cleaned := row.map cleanCell
      if isDigitStr (rowIdRaw cleaned) then
        Option.some (mkIndividualRecord cy (pyInt (rowIdRaw cleaned)) cleaned)
      else Option.none) ∧
    groupsRowLoop cy rows = rows.filterMap (fun row =>
      let cleaned := row.map cleanCell
      if isDigitStr (rowIdRaw cleaned) then
        Option.some (mkGroupRecord cy (pyInt (rowIdRaw cleaned)) cleaned)
      else Option.none) := by
  induction rows with
  | nil => exact ⟨rfl, rfl⟩
  | cons row rest ih =>
    refine ⟨?_, ?_⟩ <;>
      · simp only [individualsRowLoop, groupsRowLoop, List.filterMap_cons]
        by_cases h : isDigitStr (rowIdRaw (row.map cleanCell)) = true
        · simp [h, ih.1, ih.2]
        · simp only [Bool.not_eq_true] at h
          simp [h, ih.1, ih.2]

/-- C7: both pipelines enter their processing branch exactly when the freshly
observed fingerprint differs from the stored one under Python `!=`, where an
absent stored value never equals a string (first run always processes) and equal
strings skip. -/
theorem c7_change_detection (envU : UnscEnv) (envK : KdnEnv) (c s : String) :
    ((run_unsc_sanction_list_process envU).changeDetected =
      (envU.xmlLink.isSome && (envU.downloadOk && pyNe envU.currentHash envU.storedHash))) ∧
    ((run_kdn_sanction_list_process envK).changeDetected =
      (match envK.currentUrl with
       | Option.none => false
       | Option.some cur => pyNe cur envK.storedUrl)) ∧
    pyNe c Option.none = true ∧
    pyNe c (Option.some s) = !(c == s) ∧
    pyNe "abc" (Option.some "abc") = false ∧
    pyNe "abc" (Option.some "def") = true := by
  refine ⟨?_, ?_, rfl, rfl, by decide, by decide⟩
  · obtain ⟨link, dl, ch, sh, ct, up, wr⟩ := envU
    cases link <;> cases dl <;> cases ct <;> cases up <;> cases wr <;>
      cases h : pyNe ch sh <;>
        simp [run_unsc_sanction_list_process, h, unsc_call_raises_type_error,
          unsc_main_call_kwargs, unsc_parser_param_names]
  · obtain ⟨cur, stored, pdf, w, ui, ug, cy⟩ := envK
    cases cur with
    | none => rfl
    | some u =>
      cases h : pyNe u stored with
      | false => simp [run_kdn_sanction_list_process, h]
      | true =>
        cases pdf with
        | none => simp [run_kdn_sanction_list_process, h]
        | some pages =>
          cases hc : convert_individuals_to_json cy pages <;>
            simp [run_kdn_sanction_list_process, h, hc]

/-- C2: whenever the fresh hash differs from the stored one, the claim says the
run converts, publishes and then stores the new hash. In the code the call
`download_and_convert_xml_to_json(xml_link, xml_content_bytes=...)` at
src/main.py line 71 passes a keyword argument that the function defined at
src/UNSC/unsc_xml_parser.py line 367 (parameters xml_url, output_json_path)
does not accept, so Python raises TypeError before the function body runs; the
blanket handler swallows it and the run ends with nothing converted, nothing
published and no fingerprint write. -/
theorem c2_changed_run_type_errors :
    unsc_call_raises_type_error = true ∧
    run_unsc_sanction_list_process envUnscChanged =
      ⟨true, false, Option.none, true⟩ ∧
    run_unsc_sanction_list_process envUnscFirstRun =
      ⟨true, false, Option.none, true⟩ :=
  ⟨rfl, rfl, rfl⟩

/-- C1 counterexample: in this run the KDN pipeline stores the new URL
fingerprint even though extraction yields nothing and no publish ever happens,
so a fingerprint value is written without extraction-and-publish success. -/
theorem c1_counterexample :
    (run_kdn_sanction_list_process envKdnEmptyPdf).fingerprintWritten =
      Option.some "https://www.moha.gov.my/new.xml" ∧
    (run_kdn_sanction_list_process envKdnEmptyPdf).individualsPublished = false ∧
    (run_kdn_sanction_list_process envKdnEmptyPdf).groupsPublished = false :=
  ⟨rfl, rfl, rfl⟩

/-- C1 amended: the UNSC pipeline never stores a hash at all in the current code
(its convert call always raises, see C2), so in particular it never stores one
without a successful publish; the KDN pipeline stores the new URL exactly when
the discovered URL differs from the stored one and the PDF download succeeded
and the store write succeeds — independently of whether extraction or
publishing later succeed, fail, or raise. Only a missing URL, an unchanged URL,
or a failed download leave the KDN fingerprint unchanged. -/
theorem c1_fingerprint_write_characterization (envU : UnscEnv) (envK : KdnEnv) (u : String) :
    (run_unsc_sanction_list_process envU).hashWritten = Option.none ∧
    ((run_kdn_sanction_list_process envK).fingerprintWritten = Option.some u ↔
      (envK.currentUrl = Option.some u ∧ pyNe u envK.storedUrl = true ∧
        envK.pdf.isSome = true ∧ envK.writeStateOk = true)) := by
  constructor
  · obtain ⟨link, dl, ch, sh, ct, up, wr⟩ := envU
    cases link <;> cases dl <;>
      cases h : pyNe ch sh <;>
        simp [run_unsc_sanction_list_process, h, unsc_call_raises_type_error,
          unsc_main_call_kwargs, unsc_parser_param_names]
  · obtain ⟨cur, stored, pdf, w, ui, ug, cy⟩ := envK
    cases cur with
    | none => simp [run_kdn_sanction_list_process]
    | some c0 =>
      cases h : pyNe c0 stored with
      | false =>
        simp only [run_kdn_sanction_list_process, h]
        constructor
        · intro hcontra; cases hcontra
        · rintro ⟨hc, hne, -, -⟩
          cases hc
          rw [h] at hne
          cases hne
      | true =>
        cases pdf with
        | none =>
          simp [run_kdn_sanction_list_process, h]
        | some pages =>
          cases w with
          | false =>
            cases hc : convert_individuals_to_json cy pages <;>
              simp [run_kdn_sanction_list_process, h, hc]
          | true =>
            cases hc : convert_individuals_to_json cy pages <;>
              · simp [run_kdn_sanction_list_process, h, hc]
                intro he
                subst he
                exact h

/-- C10: convert_groups_to_json touches only the pages with index in
[start_page_num, min(end_page_num, last index)]: a start at or past the page
count yields the empty list without error, and two documents of equal length
that agree on every in-range page produce identical output (so out-of-range
pages are never read). -/
theorem c10_groups_page_range (cy : Nat) (pdf pdf2 : List Page) (s e : Nat) :
    (pdf.length ≤ s → convert_groups_to_json cy pdf s e = []) ∧
    (pdf.length = pdf2.length →
      (∀ i, s ≤ i → i < min (e + 1) pdf.length → pdf.get? i = pdf2.get? i) →
      convert_groups_to_json cy pdf s e = convert_groups_to_json cy pdf2 s e) := by
  constructor
  · intro hs
    have h0 : min (e + 1) pdf.length - s = 0 := by omega
    simp [convert_groups_to_json, h0]
  · intro hlen hframe
    unfold convert_groups_to_json
    rw [← hlen]
    congr 1
    apply List.map_congr_left
    intro i hi
    have hmem := List.mem_range'_1.mp hi
    have hget : pdf.get? i = pdf2.get? i := hframe i hmem.1 (by omega)
    rw [hget]

/-- Witness for C10 at concrete inputs: start beyond the two pages gives [], and
replacing the out-of-range page 1 leaves the output over pages [0,0] unchanged,
namely the single record of page 0. -/
theorem c10_witness :
    convert_groups_to_json 2026 [pageGrpOne, pageGrpOther] 5 7 = [] ∧
    convert_groups_to_json 2026 [pageGrpOne, pageGrpOther] 0 0 =
      convert_groups_to_json 2026 [pageGrpOne, ⟨[], Option.none⟩] 0 0 ∧
    convert_groups_to_json 2026 [pageGrpOne, pageGrpOther] 0 0 = [recGrp] := by
  refine ⟨?_, ?_, rfl⟩
  · exact (c10_groups_page_range 2026 [pageGrpOne, pageGrpOther]
      [pageGrpOne, pageGrpOther] 5 7).1 (by decide)
  · refine (c10_groups_page_range 2026 [pageGrpOne, pageGrpOther]
      [pageGrpOne, ⟨[], Option.none⟩] 0 0).2 rfl ?_
    intro i _ hi
    have : i = 0 := by omega
    subst this
    rfl

/-- C3 counterexample: an individual with no DESIGNATION element serializes with
no DESIGNATION key at all (not an empty list), and a single place-of-birth
element serializes as the bare object, not as a one-element list. -/
theorem c3_counterexample :
    dictGet (transform_individual_data []) "DESIGNATION" = PyVal.none ∧
    PyVal.none ≠ PyVal.list [] ∧
    dictGet (transform_individual_data
        [("INDIVIDUAL_PLACE_OF_BIRTH",
          .dict [("CITY", .str "Mosul"), ("COUNTRY", .str "Iraq")])])
      "INDIVIDUAL_PLACE_OF_BIRTH" =
      .dict [("CITY", PyVal.str "Mosul"), ("COUNTRY", PyVal.str "Iraq")] ∧
    PyVal.dict [("CITY", PyVal.str "Mosul"), ("COUNTRY", PyVal.str "Iraq")] ≠
      PyVal.list [PyVal.dict [("CITY", PyVal.str "Mosul"), ("COUNTRY", PyVal.str "Iraq")]] :=
  ⟨rfl, fun h => PyVal.noConfusion h, rfl, fun h => PyVal.noConfusion h⟩

/-- C3 amended: cardinality handling of transform_individual_data as the code
actually does it. INDIVIDUAL_ALIAS: one alias object with nonempty name gives a
one-element list, two give a two-element list, and none gives the default
object with empty QUALITY and ALIAS_NAME. DESIGNATION: emitted as a dict with a
VALUE list only when a nonempty value exists, and the key is omitted entirely
when the element is absent. INDIVIDUAL_DOCUMENT defaults to the empty string,
not an empty list. -/
theorem c3_amended :
    (∀ q a : String, pyStrip a ≠ "" →
      dictGet (transform_individual_data
          [("INDIVIDUAL_ALIAS", .dict [("QUALITY", .str q), ("ALIAS_NAME", .str a)])])
        "INDIVIDUAL_ALIAS" =
      .list [.dict [("QUALITY", .str (pyStrip q)), ("ALIAS_NAME", .str (pyStrip a))]]) ∧
    (∀ q1 a1 q2 a2 : String, pyStrip a1 ≠ "" → pyStrip a2 ≠ "" →
      dictGet (transform_individual_data
          [("INDIVIDUAL_ALIAS", .list
            [.dict [("QUALITY", .str q1), ("ALIAS_NAME", .str a1)],
             .dict [("QUALITY", .str q2), ("ALIAS_NAME", .str a2)]])])
        "INDIVIDUAL_ALIAS" =
      .list [.dict [("QUALITY", .str (pyStrip q1)), ("ALIAS_NAME", .str (pyStrip a1))],
             .dict [("QUALITY", .str (pyStrip q2)), ("ALIAS_NAME", .str (pyStrip a2))]]) ∧
    dictGet (transform_individual_data []) "INDIVIDUAL_ALIAS" =
      .dict [("QUALITY", .str ""), ("ALIAS_NAME", .str "")] ∧
    (∀ v : String, pyStrip v ≠ "" →
      dictGet (transform_individual_data [("DESIGNATION", .dict [("VALUE", .str v)])])
        "DESIGNATION" = .dict [("VALUE", .list [.str (pyStrip v)])]) ∧
    dictGet (transform_individual_data []) "DESIGNATION" = PyVal.none ∧
    dictGet (transform_individual_data []) "INDIVIDUAL_DOCUMENT" = .str "" := by
  refine ⟨?_, ?_, rfl, ?_, rfl, rfl⟩
  · intro q a h
    simp [transform_individual_data, dictGet, dictAssign, dictHas, omitIfEmptyStep,
      fields_to_omit_if_empty, titleValueOf, designationValuesOf, valueFieldOf,
      updatedDatesOf, processedAliasesOf, aliasEntryOf, tempAddressOf, tempDobOf,
      processedPobsOf, processedDocumentsOf, pobEntryOf, documentEntryOf,
      get_safe_string, get_safe_int, pyTruthy, strDictGet, dobKeep, h]
  · intro q1 a1 q2 a2 h1 h2
    simp [transform_individual_data, dictGet, dictAssign, dictHas, omitIfEmptyStep,
      fields_to_omit_if_empty, titleValueOf, designationValuesOf, valueFieldOf,
      updatedDatesOf, processedAliasesOf, aliasEntryOf, tempAddressOf, tempDobOf,
      processedPobsOf, processedDocumentsOf, pobEntryOf, documentEntryOf,
      get_safe_string, get_safe_int, pyTruthy, strDictGet, dobKeep, h1, h2]
  · intro v h
    simp [transform_individual_data, dictGet, dictAssign, dictHas, omitIfEmptyStep,
      fields_to_omit_if_empty, titleValueOf, designationValuesOf, valueFieldOf,
      updatedDatesOf, processedAliasesOf, aliasEntryOf, tempAddressOf, tempDobOf,
      processedPobsOf, processedDocumentsOf, pobEntryOf, documentEntryOf,
      get_safe_string, get_safe_int, pyTruthy, strDictGet, dobKeep, h]

/-- Witness for C3's amended theorem at concrete payloads. -/
theorem c3_amended_witness :
    dictGet (transform_individual_data
        [("INDIVIDUAL_ALIAS", .dict [("QUALITY", .str "Good"), ("ALIAS_NAME", .str "Abu Ali")])])
      "INDIVIDUAL_ALIAS" =
      .list [.dict [("QUALITY", .str "Good"), ("ALIAS_NAME", .str "Abu Ali")]] ∧
    dictGet (transform_individual_data
        [("INDIVIDUAL_ALIAS", .list
          [.dict [("QUALITY", .str "Good"), ("ALIAS_NAME", .str "Abu Ali")],
           .dict [("QUALITY", .str "Low"), ("ALIAS_NAME", .str "Al Fulan")]])])
      "INDIVIDUAL_ALIAS" =
      .list [.dict [("QUALITY", .str "Good"), ("ALIAS_NAME", .str "Abu Ali")],
             .dict [("QUALITY", .str "Low"), ("ALIAS_NAME", .str "Al Fulan")]] ∧
    dictGet (transform_individual_data [("DESIGNATION", .dict [("VALUE", .str "commander")])])
      "DESIGNATION" = .dict [("VALUE", .list [.str "commander"])] := by
  refine ⟨?_, ?_, ?_⟩
  · have h := c3_amended.1 "Good" "Abu Ali" (by decide)
    simpa using h
  · have h := c3_amended.2.1 "Good" "Abu Ali" "Low" "Al Fulan" (by decide) (by decide)
    simpa using h
  · have h := c3_amended.2.2.2.1 "commander" (by decide)
    simpa using h
